import Mathlib

/-!
Shallow embedding of `pkg/ccl/sqlproxyccl/backend_dialer.go`: the backend
dialer of the SQL proxy (`BackendDial`, `sslOverlay`, `relayStartupMsg`).

The outside world (backend reachability, results of the individual reads and
writes, the TLS handshake outcome) is an oracle `NetEnv` fixed for the single
dial attempt.  Connection lifecycle, wire writes and reads, the lazy TLS
handshake and `Close` calls are recorded in an event trace, and TLS
configurations live in an explicit heap (`St.store`) so that mutation — and
its absence — is observable.
-/

set_option autoImplicit false

/-- Error classification codes used by the dialer.  The codes themselves are
declared in the package's error plumbing, outside this file; only the two the
dialer uses are modelled. -/
inductive ErrCode where
  | codeBackendDown
  | codeBackendRefusedTLS
deriving DecidableEq

/-- An opaque error value coming from the transport / TLS libraries. -/
structure GoErr where
  msg : String
deriving DecidableEq

/-- The messages the dialer formats, kept structured: each constructor is one
`newErrorf` format string of the source, with the interpolated arguments as
fields.  Note `readSSLResponse` carries no underlying error: the source's
format string for that branch drops it. -/
inductive ErrMsg where
  | unreachable (underlying : GoErr)
  | sendSSLRequest (underlying : GoErr)
  | readSSLResponse
  | refusedTLS
  | relayStartup (addr : String) (underlying : GoErr)
deriving DecidableEq

/-- A classified proxy error. -/
structure ProxyErr where
  code : ErrCode
  msg : ErrMsg
deriving DecidableEq

/-- Modelled from the spec: `newErrorf` (defined in the package's errors file,
not under `src/`) builds an error carrying a classification code and a
formatted message. -/
def newErrorf (code : ErrCode) (msg : ErrMsg) : ProxyErr := ⟨code, msg⟩

/-- Modelled from the spec: `pgSSLRequest` (declared elsewhere in the package,
not under `src/`) is the fixed 32-bit magic code identifying an SSL/TLS
upgrade request, written in big-endian byte order; the PostgreSQL protocol
value is 80877103. -/
def pgSSLRequest : Nat := 80877103

/-- Modelled from the spec: `pgAcceptSSLRequest` (declared elsewhere in the
package, not under `src/`) is the single accept byte of the negotiation
response; the PostgreSQL protocol value is the byte of the character S. -/
def pgAcceptSSLRequest : Nat := 83

/-- `binary.Write(conn, binary.BigEndian, v)` for a 32-bit value `v`: the four
bytes of `v`, most significant first. -/
def beBytes4 (n : Nat) : List Nat :=
  [n / 2 ^ 24 % 256, n / 2 ^ 16 % 256, n / 2 ^ 8 % 256, n % 256]

/-- Connection handles observable during one `BackendDial` call: the single
TCP connection the call dials, and the `tls.Client` wrapper around it (which
carries the heap address of its TLS configuration). -/
inductive ConnHandle where
  | tcp
  | tlsWrap (cfgRef : Nat)
deriving DecidableEq

/-- Events of one dial attempt, in order of occurrence.
`dial` records the timeout (in seconds) passed to `net.DialTimeout`;
`write` records a write call with the app-level bytes handed to it and
whether it succeeded; `read1` records the one-byte read of the negotiation
response (`none` = the stream closed before one byte was read);
`handshake` records the lazy TLS handshake on the config at `cfgRef`;
`close c` records a `Close` call on the connection value `c` — `none` means
`Close` was invoked on a nil connection value, which panics at dispatch. -/
inductive Ev where
  | dial (timeoutSecs : Nat)
  | write (c : ConnHandle) (bytes : List Nat) (ok : Bool)
  | read1 (c : ConnHandle) (res : Option Nat)
  | handshake (cfgRef : Nat) (ok : Bool)
  | close (c : Option ConnHandle)
deriving DecidableEq

/-- The outside world for one dial attempt: what each potentially fallible
interaction with the backend would return.  `none` in an error slot means the
operation succeeds; `sslResponse = none` means the stream closes before the
one response byte arrives. -/
structure NetEnv where
  dialErr : Option GoErr
  sslWriteErr : Option GoErr
  sslResponse : Option Nat
  handshakeErr : Option GoErr
  startupWriteErr : Option GoErr
deriving DecidableEq

/-- Mutable state threaded through the call: the heap of TLS configuration
objects (config values indexed by heap address) and the event trace. -/
structure St where
  store : List Nat
  trace : List Ev
deriving DecidableEq

/-- Append one event to the trace. -/
def St.emit (s : St) (e : Ev) : St :=
  { s with trace := s.trace ++ [e] }

/-- Shallow embedding of `sslOverlay(conn net.Conn, tlsConfig *tls.Config)
(net.Conn, error)`.  The Go pair shape is kept: the first component is the
connection return value (`none` = Go `nil`).  With no TLS config the
connection is returned unchanged.  Otherwise: write the 4-byte big-endian
`pgSSLRequest`; on write error return `(nil, codeBackendDown)`.  Read exactly
one response byte with `io.ReadFull`; on read error return
`(nil, codeBackendDown)`.  If the byte is not `pgAcceptSSLRequest` return
`(nil, codeBackendRefusedTLS)`.  Otherwise clone the config
(`tlsConfig.Clone()` — a fresh heap cell holding a copy of the caller's
value) and return `tls.Client(conn, outCfg)`, which only wraps the
connection: no handshake is performed here. -/
def sslOverlay (env : NetEnv) (conn : ConnHandle) (tlsConfig : Option Nat) (s : St) :
    (Option ConnHandle × Option ProxyErr) × St :=
  match tlsConfig with
  | none => ((some conn, none), s)
  | some cfgRef =>
    let s1 := s.emit (Ev.write conn (beBytes4 pgSSLRequest) env.sslWriteErr.isNone)
    match env.sslWriteErr with
    | some e =>
      ((none, some (newErrorf ErrCode.codeBackendDown (ErrMsg.sendSSLRequest e))), s1)
    | none =>
      let s2 := s1.emit (Ev.read1 conn env.sslResponse)
      match env.sslResponse with
      | none =>
        ((none, some (newErrorf ErrCode.codeBackendDown ErrMsg.readSSLResponse)), s2)
      | some b =>
        if b ≠ pgAcceptSSLRequest then
          ((none, some (newErrorf ErrCode.codeBackendRefusedTLS ErrMsg.refusedTLS)), s2)
        else
          let s3 := { s2 with store := s2.store ++ [s2.store.getD cfgRef 0] }
          ((some (ConnHandle.tlsWrap s2.store.length), none), s3)

/-- `conn.Write(bytes)` as used by `relayStartupMsg`.  On a plain TCP
connection the write succeeds or fails as the environment dictates.  On a
`tls.Client` connection the deferred TLS handshake runs automatically before
the first write; the Go handshake records session state into the
connection's configuration (the reason the config is cloned), modelled as
bumping the config cell at `cfgRef`.  A handshake failure is returned as the
write's error. -/
def connWrite (env : NetEnv) (c : ConnHandle) (bytes : List Nat) (s : St) :
    Option GoErr × St :=
  match c with
  | ConnHandle.tcp =>
    (env.startupWriteErr, s.emit (Ev.write c bytes env.startupWriteErr.isNone))
  | ConnHandle.tlsWrap cfgRef =>
    let s1 := { s with store := s.store.set cfgRef (s.store.getD cfgRef 0 + 1) }
    let s2 := s1.emit (Ev.handshake cfgRef env.handshakeErr.isNone)
    match env.handshakeErr with
    | some e => (some e, s2)
    | none =>
      (env.startupWriteErr, s2.emit (Ev.write c bytes env.startupWriteErr.isNone))

/-- A startup message, opaque to this core beyond its serialized byte form
(the encoding of its internal fields is out of scope). -/
structure StartupMessage where
  enc : List Nat
deriving DecidableEq

/-- `msg.Encode(nil)`: the serialized bytes of the startup message. -/
def StartupMessage.Encode (m : StartupMessage) : List Nat := m.enc

/-- Shallow embedding of `relayStartupMsg(conn net.Conn, msg
*pgproto3.StartupMessage) error`: `_, err = conn.Write(msg.Encode(nil))`. -/
def relayStartupMsg (env : NetEnv) (conn : ConnHandle) (msg : StartupMessage) (s : St) :
    Option GoErr × St :=
  connWrite env conn msg.Encode s

/-- Result of one `BackendDial` call.  `panicked` is a Go runtime panic
raised inside the call (in particular by the deferred cleanup invoking
`Close` on a nil connection value); no value is returned to the caller. -/
inductive Outcome where
  | ok (c : ConnHandle)
  | err (e : ProxyErr)
  | panicked
deriving DecidableEq

/-- The deferred cleanup of `BackendDial`:
`defer func() { if retErr != nil { conn.Close() } }()`, executed while
returning the error `e`, with `connVar` the value of the `conn` variable at
that moment.  A method call on a nil interface value panics, so `connVar =
none` turns the error return into a panic.  Closing a `tls.Client`
connection closes the underlying TCP connection. -/
def deferClose (connVar : Option ConnHandle) (e : ProxyErr) (s : St) : Outcome × St :=
  match connVar with
  | none => (Outcome.panicked, s.emit (Ev.close none))
  | some c => (Outcome.err e, s.emit (Ev.close (some c)))

/-- The dial timeout `BackendDial` passes to `net.DialTimeout`: 5 seconds. -/
def backendDialTimeoutSecs : Nat := 5

/-- Shallow embedding of `BackendDial(msg, serverAddress, tlsConfig)
(net.Conn, error)`.  Dial the backend with a 5-second timeout; on failure
return `codeBackendDown` wrapping the transport error (no connection was
created).  Register the deferred close, then `conn, err = sslOverlay(conn,
tlsConfig)` — the `conn` variable is overwritten with whatever `sslOverlay`
returns, including its `nil` on error — and on error return it through the
deferred cleanup.  Then relay the startup message; a relay error is wrapped
as `codeBackendDown` with the target address and returned through the
deferred cleanup, which closes the current `conn`.  On success the deferred
cleanup does nothing and the connection is returned.  `tlsConfig` is the
heap address of the caller's TLS configuration (`none` = Go `nil`). -/
def BackendDial (env : NetEnv) (msg : StartupMessage) (serverAddress : String)
    (tlsConfig : Option Nat) (s : St) : Outcome × St :=
  match env.dialErr with
  | some e =>
    (Outcome.err (newErrorf ErrCode.codeBackendDown (ErrMsg.unreachable e)), s)
  | none =>
    let s0 := s.emit (Ev.dial backendDialTimeoutSecs)
    match sslOverlay env ConnHandle.tcp tlsConfig s0 with
    | ((connVar, some e), s1) => deferClose connVar e s1
    | ((none, none), s1) =>
      -- Go would dereference the nil connection inside relayStartupMsg's
      -- Write call; sslOverlay never produces this pair.
      (Outcome.panicked, s1)
    | ((some c, none), s1) =>
      match relayStartupMsg env c msg s1 with
      | (some e, s2) =>
        deferClose (some c)
          (newErrorf ErrCode.codeBackendDown (ErrMsg.relayStartup serverAddress e)) s2
      | (none, s2) => (Outcome.ok c, s2)

/-- The write calls of a trace: connection and bytes handed to each `Write`. -/
def writeCalls : List Ev → List (ConnHandle × List Nat)
  | [] => []
  | Ev.write c bytes _ :: t => (c, bytes) :: writeCalls t
  | _ :: t => writeCalls t

/-- Negotiation fails or is refused: the SSLRequest write fails, the stream
closes before one response byte, or the response byte is not the accept
code.  Exactly the conditions under which `sslOverlay` returns an error. -/
def negotiationFails (env : NetEnv) : Bool :=
  env.sslWriteErr.isSome ||
    match env.sslResponse with
    | none => true
    | some b => b != pgAcceptSSLRequest

/-- The startup payload of the spec's end-to-end example scenario. -/
def msg0 : StartupMessage := ⟨[0, 0, 0, 8, 4, 210, 22, 47]⟩

/-- A backend that accepts the dial and answers the SSLRequest with byte 78
(the character N): an explicit TLS refusal. -/
def envRefused : NetEnv := ⟨none, none, some 78, none, none⟩

/-- A backend that accepts the dial and then closes the stream before sending
the one-byte negotiation response. -/
def envShortRead : NetEnv := ⟨none, none, none, none, none⟩

/-- A backend that accepts the negotiation but fails the TLS handshake. -/
def envHandshakeFail : NetEnv := ⟨none, none, some pgAcceptSSLRequest, some ⟨"tls: bad certificate"⟩, none⟩

/-- A fully cooperative backend: dial, negotiation, handshake and writes all
succeed. -/
def envOk : NetEnv := ⟨none, none, some pgAcceptSSLRequest, none, none⟩

/-- An unreachable backend: the dial itself times out. -/
def envDialFail : NetEnv := ⟨some ⟨"i/o timeout"⟩, none, none, none, none⟩

/-- C1: the claim fails on the code.  On a negotiation failure (here the
backend refuses TLS with byte 78) `sslOverlay` returns a nil connection, the
`conn` variable is overwritten with it, and the deferred cleanup invokes
`Close` on the nil value: `BackendDial` panics, no `Close` ever runs on the
TCP connection (or any other connection), and the transport connection is
leaked rather than closed exactly once before an error return. -/
theorem backendDial_negotiation_failure_leaks_tcp_conn :
    BackendDial envRefused msg0 "target" (some 0) ⟨[7], []⟩ =
      (Outcome.panicked,
       ⟨[7],
        [Ev.dial 5, Ev.write ConnHandle.tcp [4, 210, 22, 47] true,
         Ev.read1 ConnHandle.tcp (some 78), Ev.close none]⟩) ∧
    (∀ c : ConnHandle,
      Ev.close (some c) ∉
        (BackendDial envRefused msg0 "target" (some 0) ⟨[7], []⟩).2.trace) := by
  refine ⟨rfl, ?_⟩
  intro c h
  rw [show (BackendDial envRefused msg0 "target" (some 0) ⟨[7], []⟩).2.trace =
      [Ev.dial 5, Ev.write ConnHandle.tcp [4, 210, 22, 47] true,
       Ev.read1 ConnHandle.tcp (some 78), Ev.close none] from rfl] at h
  simp at h

/-- C2: the claim fails on the code.  When the backend's response byte is not
the accept code, `sslOverlay` does build the distinct
`codeBackendRefusedTLS` error, but `BackendDial` never returns it: the
deferred cleanup calls `Close` on the nil connection value that `sslOverlay`
returned and panics, and the underlying TCP connection is not closed. -/
theorem backendDial_tls_refusal_panics_instead_of_returning :
    (sslOverlay envRefused ConnHandle.tcp (some 0) ⟨[7], [Ev.dial 5]⟩).1 =
      (none, some ⟨ErrCode.codeBackendRefusedTLS, ErrMsg.refusedTLS⟩) ∧
    ErrCode.codeBackendRefusedTLS ≠ ErrCode.codeBackendDown ∧
    (BackendDial envRefused msg0 "target" (some 0) ⟨[7], []⟩).1 = Outcome.panicked ∧
    Ev.close none ∈ (BackendDial envRefused msg0 "target" (some 0) ⟨[7], []⟩).2.trace ∧
    Ev.close (some ConnHandle.tcp) ∉
      (BackendDial envRefused msg0 "target" (some 0) ⟨[7], []⟩).2.trace := by
  refine ⟨rfl, by decide, rfl, ?_, ?_⟩ <;> decide

/-- C4: the claim fails on the code.  When the stream closes before one full
response byte, `sslOverlay` classifies the short read as `codeBackendDown`
(not as a refusal), but `BackendDial` never returns that error: it panics in
the deferred `Close` on the nil connection value, and the TCP connection is
not closed before returning. -/
theorem backendDial_short_read_panics_instead_of_returning :
    (sslOverlay envShortRead ConnHandle.tcp (some 0) ⟨[7], [Ev.dial 5]⟩).1 =
      (none, some ⟨ErrCode.codeBackendDown, ErrMsg.readSSLResponse⟩) ∧
    (sslOverlay envShortRead ConnHandle.tcp (some 0) ⟨[7], [Ev.dial 5]⟩).1.2 ≠
      some ⟨ErrCode.codeBackendRefusedTLS, ErrMsg.refusedTLS⟩ ∧
    (BackendDial envShortRead msg0 "target" (some 0) ⟨[7], []⟩).1 = Outcome.panicked ∧
    Ev.close none ∈ (BackendDial envShortRead msg0 "target" (some 0) ⟨[7], []⟩).2.trace ∧
    Ev.close (some ConnHandle.tcp) ∉
      (BackendDial envShortRead msg0 "target" (some 0) ⟨[7], []⟩).2.trace := by
  refine ⟨rfl, by decide, rfl, ?_, ?_⟩ <;> decide

/-- Characterization: the dial itself fails — `BackendDial` returns
`codeBackendDown` wrapping the transport error and touches nothing. -/
theorem backendDial_dialFail (env : NetEnv) (msg : StartupMessage) (addr : String)
    (tlsConfig : Option Nat) (σ : List Nat) (e : GoErr) (hd : env.dialErr = some e) :
    BackendDial env msg addr tlsConfig ⟨σ, []⟩ =
      (Outcome.err ⟨ErrCode.codeBackendDown, ErrMsg.unreachable e⟩, ⟨σ, []⟩) := by
  simp [BackendDial, hd, newErrorf]

/-- Characterization: writing the SSLRequest fails — the nil-conn deferred
close panics. -/
theorem backendDial_sslWriteFail (env : NetEnv) (msg : StartupMessage) (addr : String)
    (cfgRef : Nat) (σ : List Nat) (e : GoErr)
    (hd : env.dialErr = none) (hw : env.sslWriteErr = some e) :
    BackendDial env msg addr (some cfgRef) ⟨σ, []⟩ =
      (Outcome.panicked,
       ⟨σ, [Ev.dial 5, Ev.write ConnHandle.tcp (beBytes4 pgSSLRequest) false,
            Ev.close none]⟩) := by
  simp [BackendDial, sslOverlay, deferClose, St.emit, hd, hw, newErrorf, backendDialTimeoutSecs]

/-- Characterization: the stream closes before the one response byte — the
nil-conn deferred close panics. -/
theorem backendDial_shortRead (env : NetEnv) (msg : StartupMessage) (addr : String)
    (cfgRef : Nat) (σ : List Nat)
    (hd : env.dialErr = none) (hw : env.sslWriteErr = none) (hr : env.sslResponse = none) :
    BackendDial env msg addr (some cfgRef) ⟨σ, []⟩ =
      (Outcome.panicked,
       ⟨σ, [Ev.dial 5, Ev.write ConnHandle.tcp (beBytes4 pgSSLRequest) true,
            Ev.read1 ConnHandle.tcp none, Ev.close none]⟩) := by
  simp [BackendDial, sslOverlay, deferClose, St.emit, hd, hw, hr, newErrorf, backendDialTimeoutSecs]

/-- Characterization: the backend answers with a non-accept byte — the
nil-conn deferred close panics. -/
theorem backendDial_refused (env : NetEnv) (msg : StartupMessage) (addr : String)
    (cfgRef : Nat) (σ : List Nat) (b : Nat)
    (hd : env.dialErr = none) (hw : env.sslWriteErr = none) (hr : env.sslResponse = some b)
    (hb : b ≠ pgAcceptSSLRequest) :
    BackendDial env msg addr (some cfgRef) ⟨σ, []⟩ =
      (Outcome.panicked,
       ⟨σ, [Ev.dial 5, Ev.write ConnHandle.tcp (beBytes4 pgSSLRequest) true,
            Ev.read1 ConnHandle.tcp (some b), Ev.close none]⟩) := by
  simp [BackendDial, sslOverlay, deferClose, St.emit, hd, hw, hr, hb, newErrorf, backendDialTimeoutSecs]

/-- Characterization: negotiation accepted, TLS handshake fails on the first
write — the error comes back wrapped as a relay failure and the TLS-wrapped
connection is closed. -/
theorem backendDial_handshakeFail (env : NetEnv) (msg : StartupMessage) (addr : String)
    (cfgRef : Nat) (σ : List Nat) (e : GoErr)
    (hd : env.dialErr = none) (hw : env.sslWriteErr = none)
    (hr : env.sslResponse = some pgAcceptSSLRequest) (hh : env.handshakeErr = some e) :
    BackendDial env msg addr (some cfgRef) ⟨σ, []⟩ =
      (Outcome.err ⟨ErrCode.codeBackendDown, ErrMsg.relayStartup addr e⟩,
       ⟨σ ++ [σ.getD cfgRef 0 + 1],
        [Ev.dial 5, Ev.write ConnHandle.tcp (beBytes4 pgSSLRequest) true,
         Ev.read1 ConnHandle.tcp (some pgAcceptSSLRequest),
         Ev.handshake σ.length false,
         Ev.close (some (ConnHandle.tlsWrap σ.length))]⟩) := by
  simp [BackendDial, sslOverlay, relayStartupMsg, connWrite, deferClose, St.emit,
        hd, hw, hr, hh, newErrorf, backendDialTimeoutSecs, List.set_append,
        List.getD_eq_getElem?_getD, List.getElem?_append_right]

/-- Characterization: negotiation and handshake succeed, the startup write
fails — relay failure, the TLS-wrapped connection is closed. -/
theorem backendDial_tlsRelayFail (env : NetEnv) (msg : StartupMessage) (addr : String)
    (cfgRef : Nat) (σ : List Nat) (e : GoErr)
    (hd : env.dialErr = none) (hw : env.sslWriteErr = none)
    (hr : env.sslResponse = some pgAcceptSSLRequest) (hh : env.handshakeErr = none)
    (hsw : env.startupWriteErr = some e) :
    BackendDial env msg addr (some cfgRef) ⟨σ, []⟩ =
      (Outcome.err ⟨ErrCode.codeBackendDown, ErrMsg.relayStartup addr e⟩,
       ⟨σ ++ [σ.getD cfgRef 0 + 1],
        [Ev.dial 5, Ev.write ConnHandle.tcp (beBytes4 pgSSLRequest) true,
         Ev.read1 ConnHandle.tcp (some pgAcceptSSLRequest),
         Ev.handshake σ.length true,
         Ev.write (ConnHandle.tlsWrap σ.length) msg.Encode false,
         Ev.close (some (ConnHandle.tlsWrap σ.length))]⟩) := by
  simp [BackendDial, sslOverlay, relayStartupMsg, connWrite, deferClose, St.emit,
        hd, hw, hr, hh, hsw, newErrorf, backendDialTimeoutSecs, List.set_append,
        List.getD_eq_getElem?_getD, List.getElem?_append_right]

/-- Characterization: the fully successful TLS dial. -/
theorem backendDial_tlsOk (env : NetEnv) (msg : StartupMessage) (addr : String)
    (cfgRef : Nat) (σ : List Nat)
    (hd : env.dialErr = none) (hw : env.sslWriteErr = none)
    (hr : env.sslResponse = some pgAcceptSSLRequest) (hh : env.handshakeErr = none)
    (hsw : env.startupWriteErr = none) :
    BackendDial env msg addr (some cfgRef) ⟨σ, []⟩ =
      (Outcome.ok (ConnHandle.tlsWrap σ.length),
       ⟨σ ++ [σ.getD cfgRef 0 + 1],
        [Ev.dial 5, Ev.write ConnHandle.tcp (beBytes4 pgSSLRequest) true,
         Ev.read1 ConnHandle.tcp (some pgAcceptSSLRequest),
         Ev.handshake σ.length true,
         Ev.write (ConnHandle.tlsWrap σ.length) msg.Encode true]⟩) := by
  simp [BackendDial, sslOverlay, relayStartupMsg, connWrite, deferClose, St.emit,
        hd, hw, hr, hh, hsw, newErrorf, backendDialTimeoutSecs, List.set_append,
        List.getD_eq_getElem?_getD, List.getElem?_append_right]

/-- Characterization: the fully successful plain (no-TLS) dial. -/
theorem backendDial_noTLSOk (env : NetEnv) (msg : StartupMessage) (addr : String)
    (σ : List Nat) (hd : env.dialErr = none) (hsw : env.startupWriteErr = none) :
    BackendDial env msg addr none ⟨σ, []⟩ =
      (Outcome.ok ConnHandle.tcp,
       ⟨σ, [Ev.dial 5, Ev.write ConnHandle.tcp msg.Encode true]⟩) := by
  simp [BackendDial, sslOverlay, relayStartupMsg, connWrite, deferClose, St.emit,
        hd, hsw, newErrorf, backendDialTimeoutSecs]

/-- Characterization: plain dial, startup write fails — relay failure, the
TCP connection is closed. -/
theorem backendDial_noTLSRelayFail (env : NetEnv) (msg : StartupMessage) (addr : String)
    (σ : List Nat) (e : GoErr) (hd : env.dialErr = none) (hsw : env.startupWriteErr = some e) :
    BackendDial env msg addr none ⟨σ, []⟩ =
      (Outcome.err ⟨ErrCode.codeBackendDown, ErrMsg.relayStartup addr e⟩,
       ⟨σ, [Ev.dial 5, Ev.write ConnHandle.tcp msg.Encode false,
            Ev.close (some ConnHandle.tcp)]⟩) := by
  simp [BackendDial, sslOverlay, relayStartupMsg, connWrite, deferClose, St.emit,
        hd, hsw, newErrorf, backendDialTimeoutSecs]

/-- C3 (counterexample): with a backend that accepts the negotiation and then
fails the TLS handshake, `BackendDial` returns the handshake error classified
as a `codeBackendDown` startup-relay failure — `tls.Client` defers the
handshake, so nothing is surfaced at the TLS-upgrade stage and the error is
not distinguished from a relay failure, contrary to the claim. -/
theorem tls_handshake_error_classified_as_relay_failure :
    (BackendDial envHandshakeFail msg0 "target" (some 0) ⟨[7], []⟩).1 =
      Outcome.err ⟨ErrCode.codeBackendDown,
        ErrMsg.relayStartup "target" ⟨"tls: bad certificate"⟩⟩ := rfl

/-- C3 (amended): `tls.Client` defers the TLS handshake, so when the backend
accepts negotiation and the handshake then fails, the handshake error
surfaces on the first write — during the startup relay — and `BackendDial`
returns it wrapped as a `codeBackendDown` relay failure carrying the original
handshake error and the target address; the TLS-wrapped connection (closing
the transport with it) is closed by the deferred cleanup before returning. -/
theorem backendDial_handshake_error_wrapped_as_relay_failure
    (env : NetEnv) (msg : StartupMessage) (addr : String) (cfgRef : Nat)
    (σ : List Nat) (e : GoErr)
    (hd : env.dialErr = none) (hw : env.sslWriteErr = none)
    (hr : env.sslResponse = some pgAcceptSSLRequest) (hh : env.handshakeErr = some e) :
    (BackendDial env msg addr (some cfgRef) ⟨σ, []⟩).1 =
      Outcome.err ⟨ErrCode.codeBackendDown, ErrMsg.relayStartup addr e⟩ ∧
    Ev.close (some (ConnHandle.tlsWrap σ.length)) ∈
      (BackendDial env msg addr (some cfgRef) ⟨σ, []⟩).2.trace := by
  rw [backendDial_handshakeFail env msg addr cfgRef σ e hd hw hr hh]
  simp

/-- Witness for the amended C3 theorem at a concrete input. -/
theorem backendDial_handshake_error_wrapped_as_relay_failure_witness :
    (BackendDial envHandshakeFail msg0 "addr2" (some 0) ⟨[7], []⟩).1 =
      Outcome.err ⟨ErrCode.codeBackendDown,
        ErrMsg.relayStartup "addr2" ⟨"tls: bad certificate"⟩⟩ ∧
    Ev.close (some (ConnHandle.tlsWrap 1)) ∈
      (BackendDial envHandshakeFail msg0 "addr2" (some 0) ⟨[7], []⟩).2.trace :=
  backendDial_handshake_error_wrapped_as_relay_failure envHandshakeFail msg0 "addr2" 0 [7]
    ⟨"tls: bad certificate"⟩ rfl rfl rfl rfl

/-- C5: whenever `sslOverlay` returns a non-nil error its connection return
value is nil, and on every negotiation failure `BackendDial` assigns that nil
to its `conn` variable before the deferred cleanup runs, so the deferred
`Close` is invoked on a nil connection value (panicking) and never on the
original transport connection or any other connection. -/
theorem sslOverlay_error_returns_nil_conn_nil_close
    (env : NetEnv) (conn : ConnHandle) (tlsConfig : Option Nat) (s : St)
    (msg : StartupMessage) (addr : String) (cfgRef : Nat) (σ : List Nat) :
    ((sslOverlay env conn tlsConfig s).1.2.isSome →
      (sslOverlay env conn tlsConfig s).1.1 = none) ∧
    (env.dialErr = none → negotiationFails env = true →
      (BackendDial env msg addr (some cfgRef) ⟨σ, []⟩).1 = Outcome.panicked ∧
      Ev.close none ∈ (BackendDial env msg addr (some cfgRef) ⟨σ, []⟩).2.trace ∧
      ∀ c : ConnHandle,
        Ev.close (some c) ∉ (BackendDial env msg addr (some cfgRef) ⟨σ, []⟩).2.trace) := by
  constructor
  · rcases tlsConfig with _ | cfgRef2
    · simp [sslOverlay]
    · rcases hw : env.sslWriteErr with _ | e1
      · rcases hr : env.sslResponse with _ | b
        · simp [sslOverlay, hw, hr]
        · by_cases hb : b = pgAcceptSSLRequest
          · simp [sslOverlay, hw, hr, hb]
          · simp [sslOverlay, hw, hr, hb]
      · simp [sslOverlay, hw]
  · intro hd hneg
    rcases hw : env.sslWriteErr with _ | e1
    · rcases hr : env.sslResponse with _ | b
      · rw [backendDial_shortRead env msg addr cfgRef σ hd hw hr]
        refine ⟨rfl, by simp, ?_⟩
        intro c h
        simp at h
      · by_cases hb : b = pgAcceptSSLRequest
        · exfalso
          simp [negotiationFails, hw, hr, hb] at hneg
        · rw [backendDial_refused env msg addr cfgRef σ b hd hw hr hb]
          refine ⟨rfl, by simp, ?_⟩
          intro c h
          simp at h
    · rw [backendDial_sslWriteFail env msg addr cfgRef σ e1 hd hw]
      refine ⟨rfl, by simp, ?_⟩
      intro c h
      simp at h

/-- Witness for C5 at concrete inputs: an SSLRequest write failure. -/
theorem sslOverlay_error_returns_nil_conn_nil_close_witness :
    (BackendDial ⟨none, some ⟨"broken pipe"⟩, none, none, none⟩ msg0 "target5"
        (some 0) ⟨[7], []⟩).1 = Outcome.panicked ∧
    Ev.close none ∈ (BackendDial ⟨none, some ⟨"broken pipe"⟩, none, none, none⟩ msg0
        "target5" (some 0) ⟨[7], []⟩).2.trace ∧
    ∀ c : ConnHandle,
      Ev.close (some c) ∉ (BackendDial ⟨none, some ⟨"broken pipe"⟩, none, none, none⟩
        msg0 "target5" (some 0) ⟨[7], []⟩).2.trace :=
  (sslOverlay_error_returns_nil_conn_nil_close ⟨none, some ⟨"broken pipe"⟩, none, none, none⟩
    ConnHandle.tcp (some 0) ⟨[7], []⟩ msg0 "target5" 0 [7]).2 rfl rfl

/-- C6: with no TLS configuration, `sslOverlay` returns the connection
unchanged with untouched state — no negotiation is performed — and the only
write call of the whole dial is the startup payload itself: zero bytes are
written to the connection before the startup payload. -/
theorem backendDial_no_tls_skips_negotiation
    (env : NetEnv) (conn : ConnHandle) (s : St)
    (msg : StartupMessage) (addr : String) (σ : List Nat)
    (hd : env.dialErr = none) :
    sslOverlay env conn none s = ((some conn, none), s) ∧
    writeCalls (BackendDial env msg addr none ⟨σ, []⟩).2.trace =
      [(ConnHandle.tcp, msg.Encode)] := by
  refine ⟨rfl, ?_⟩
  rcases hsw : env.startupWriteErr with _ | e
  · rw [backendDial_noTLSOk env msg addr σ hd hsw]
    simp [writeCalls]
  · rw [backendDial_noTLSRelayFail env msg addr σ e hd hsw]
    simp [writeCalls]

/-- Witness for C6 at the spec's example scenario. -/
theorem backendDial_no_tls_skips_negotiation_witness :
    sslOverlay envOk ConnHandle.tcp none ⟨[7], []⟩ = ((some ConnHandle.tcp, none), ⟨[7], []⟩) ∧
    writeCalls (BackendDial envOk msg0 "127.0.0.1:5432" none ⟨[7], []⟩).2.trace =
      [(ConnHandle.tcp, msg0.Encode)] :=
  backendDial_no_tls_skips_negotiation envOk ConnHandle.tcp ⟨[7], []⟩ msg0 "127.0.0.1:5432" [7] rfl

/-- C7: every successful `BackendDial` has, as the last event of the call,
written the caller's startup payload verbatim (the bytes of
`msg.Encode`, unmodified) to the returned connection, and has issued no
`Close` at all: the connection is returned open with the payload already
relayed. -/
theorem backendDial_success_startup_written_last
    (env : NetEnv) (msg : StartupMessage) (addr : String) (tlsConfig : Option Nat)
    (σ : List Nat) (c : ConnHandle)
    (hok : (BackendDial env msg addr tlsConfig ⟨σ, []⟩).1 = Outcome.ok c) :
    (BackendDial env msg addr tlsConfig ⟨σ, []⟩).2.trace.getLast? =
      some (Ev.write c msg.Encode true) ∧
    ∀ x : Option ConnHandle,
      Ev.close x ∉ (BackendDial env msg addr tlsConfig ⟨σ, []⟩).2.trace := by
  rcases hd : env.dialErr with _ | e
  · rcases tlsConfig with _ | cfgRef
    · rcases hsw : env.startupWriteErr with _ | e1
      · rw [backendDial_noTLSOk env msg addr σ hd hsw] at hok ⊢
        simp only [Outcome.ok.injEq] at hok
        subst hok
        refine ⟨rfl, ?_⟩
        intro x h
        simp at h
      · rw [backendDial_noTLSRelayFail env msg addr σ e1 hd hsw] at hok
        simp at hok
    · rcases hw : env.sslWriteErr with _ | e1
      · rcases hr : env.sslResponse with _ | b
        · rw [backendDial_shortRead env msg addr cfgRef σ hd hw hr] at hok
          simp at hok
        · by_cases hb : b = pgAcceptSSLRequest
          · subst hb
            rcases hh : env.handshakeErr with _ | e2
            · rcases hsw : env.startupWriteErr with _ | e3
              · rw [backendDial_tlsOk env msg addr cfgRef σ hd hw hr hh hsw] at hok ⊢
                simp only [Outcome.ok.injEq] at hok
                subst hok
                refine ⟨rfl, ?_⟩
                intro x h
                simp at h
              · rw [backendDial_tlsRelayFail env msg addr cfgRef σ e3 hd hw hr hh hsw] at hok
                simp at hok
            · rw [backendDial_handshakeFail env msg addr cfgRef σ e2 hd hw hr hh] at hok
              simp at hok
          · rw [backendDial_refused env msg addr cfgRef σ b hd hw hr hb] at hok
            simp at hok
      · rw [backendDial_sslWriteFail env msg addr cfgRef σ e1 hd hw] at hok
        simp at hok
  · rw [backendDial_dialFail env msg addr tlsConfig σ e hd] at hok
    simp at hok

/-- Witness for C7 at a concrete successful TLS dial. -/
theorem backendDial_success_startup_written_last_witness :
    (BackendDial envOk msg0 "target7" (some 0) ⟨[7], []⟩).2.trace.getLast? =
      some (Ev.write (ConnHandle.tlsWrap 1) msg0.Encode true) ∧
    ∀ x : Option ConnHandle,
      Ev.close x ∉ (BackendDial envOk msg0 "target7" (some 0) ⟨[7], []⟩).2.trace :=
  backendDial_success_startup_written_last envOk msg0 "target7" (some 0) [7]
    (ConnHandle.tlsWrap 1) rfl

/-- C8: with a TLS configuration supplied, the dial's first action on the
connection is writing the negotiation request — the magic code
`pgSSLRequest` encoded big-endian in exactly 4 bytes (the 4 bytes reassemble,
most significant first, to the magic code) — and only once that write has
succeeded is exactly one response byte read, as the immediately following
event. -/
theorem backendDial_tls_writes_magic_then_reads_one_byte
    (env : NetEnv) (msg : StartupMessage) (addr : String) (cfgRef : Nat) (σ : List Nat)
    (hd : env.dialErr = none) :
    (beBytes4 pgSSLRequest).length = 4 ∧
    (beBytes4 pgSSLRequest).foldl (fun a b => a * 256 + b) 0 = pgSSLRequest ∧
    ((BackendDial env msg addr (some cfgRef) ⟨σ, []⟩).2.trace.take 2 =
      [Ev.dial backendDialTimeoutSecs,
       Ev.write ConnHandle.tcp (beBytes4 pgSSLRequest) env.sslWriteErr.isNone] ∧
     (env.sslWriteErr = none →
       ((BackendDial env msg addr (some cfgRef) ⟨σ, []⟩).2.trace.drop 2).head? =
         some (Ev.read1 ConnHandle.tcp env.sslResponse))) := by
  refine ⟨by decide, by decide, ?_⟩
  rcases hw : env.sslWriteErr with _ | e1
  · rcases hr : env.sslResponse with _ | b
    · rw [backendDial_shortRead env msg addr cfgRef σ hd hw hr]
      exact ⟨by simp [hw, backendDialTimeoutSecs], fun _ => by simp [hr]⟩
    · by_cases hb : b = pgAcceptSSLRequest
      · subst hb
        rcases hh : env.handshakeErr with _ | e2
        · rcases hsw : env.startupWriteErr with _ | e3
          · rw [backendDial_tlsOk env msg addr cfgRef σ hd hw hr hh hsw]
            exact ⟨by simp [hw, backendDialTimeoutSecs], fun _ => by simp [hr]⟩
          · rw [backendDial_tlsRelayFail env msg addr cfgRef σ e3 hd hw hr hh hsw]
            exact ⟨by simp [hw, backendDialTimeoutSecs], fun _ => by simp [hr]⟩
        · rw [backendDial_handshakeFail env msg addr cfgRef σ e2 hd hw hr hh]
          exact ⟨by simp [hw, backendDialTimeoutSecs], fun _ => by simp [hr]⟩
      · rw [backendDial_refused env msg addr cfgRef σ b hd hw hr hb]
        exact ⟨by simp [hw, backendDialTimeoutSecs], fun _ => by simp [hr]⟩
  · rw [backendDial_sslWriteFail env msg addr cfgRef σ e1 hd hw]
    refine ⟨by simp [hw, backendDialTimeoutSecs], ?_⟩
    intro hwn
    exact Option.noConfusion hwn

/-- Witness for C8 at a concrete input. -/
theorem backendDial_tls_writes_magic_then_reads_one_byte_witness :
    (beBytes4 pgSSLRequest).length = 4 ∧
    (beBytes4 pgSSLRequest).foldl (fun a b => a * 256 + b) 0 = pgSSLRequest ∧
    ((BackendDial envRefused msg0 "target8" (some 0) ⟨[7], []⟩).2.trace.take 2 =
      [Ev.dial backendDialTimeoutSecs,
       Ev.write ConnHandle.tcp (beBytes4 pgSSLRequest) true] ∧
     (envRefused.sslWriteErr = none →
       ((BackendDial envRefused msg0 "target8" (some 0) ⟨[7], []⟩).2.trace.drop 2).head? =
         some (Ev.read1 ConnHandle.tcp (some 78)))) :=
  backendDial_tls_writes_magic_then_reads_one_byte envRefused msg0 "target8" 0 [7] rfl

/-- C9: the dial timeout is the fixed constant 5 seconds; if the dial fails,
`BackendDial` returns `codeBackendDown` carrying the underlying transport
error with state untouched — no connection was created, returned or left
open — and if the dial succeeds, the very first event is the dial performed
under that 5-second timeout. -/
theorem backendDial_unreachable_and_timeout
    (env : NetEnv) (msg : StartupMessage) (addr : String) (tlsConfig : Option Nat)
    (σ : List Nat) :
    backendDialTimeoutSecs = 5 ∧
    (∀ e : GoErr, env.dialErr = some e →
      BackendDial env msg addr tlsConfig ⟨σ, []⟩ =
        (Outcome.err ⟨ErrCode.codeBackendDown, ErrMsg.unreachable e⟩, ⟨σ, []⟩)) ∧
    (env.dialErr = none →
      (BackendDial env msg addr tlsConfig ⟨σ, []⟩).2.trace.head? =
        some (Ev.dial backendDialTimeoutSecs)) := by
  refine ⟨rfl, fun e hd => backendDial_dialFail env msg addr tlsConfig σ e hd, ?_⟩
  intro hd
  rcases tlsConfig with _ | cfgRef
  · rcases hsw : env.startupWriteErr with _ | e1
    · rw [backendDial_noTLSOk env msg addr σ hd hsw]; rfl
    · rw [backendDial_noTLSRelayFail env msg addr σ e1 hd hsw]; rfl
  · rcases hw : env.sslWriteErr with _ | e1
    · rcases hr : env.sslResponse with _ | b
      · rw [backendDial_shortRead env msg addr cfgRef σ hd hw hr]; rfl
      · by_cases hb : b = pgAcceptSSLRequest
        · subst hb
          rcases hh : env.handshakeErr with _ | e2
          · rcases hsw : env.startupWriteErr with _ | e3
            · rw [backendDial_tlsOk env msg addr cfgRef σ hd hw hr hh hsw]; rfl
            · rw [backendDial_tlsRelayFail env msg addr cfgRef σ e3 hd hw hr hh hsw]; rfl
          · rw [backendDial_handshakeFail env msg addr cfgRef σ e2 hd hw hr hh]; rfl
        · rw [backendDial_refused env msg addr cfgRef σ b hd hw hr hb]; rfl
    · rw [backendDial_sslWriteFail env msg addr cfgRef σ e1 hd hw]; rfl

/-- Witness for C9: the spec's example failure scenario, an unreachable
address. -/
theorem backendDial_unreachable_and_timeout_witness :
    BackendDial envDialFail msg0 "10.255.255.1:5432" none ⟨[], []⟩ =
      (Outcome.err ⟨ErrCode.codeBackendDown, ErrMsg.unreachable ⟨"i/o timeout"⟩⟩,
       ⟨[], []⟩) :=
  (backendDial_unreachable_and_timeout envDialFail msg0 "10.255.255.1:5432" none []).2.1
    ⟨"i/o timeout"⟩ rfl

/-- C10: `BackendDial` never mutates the caller's TLS configuration: the
caller's config cell is unchanged by the whole call, and the TLS handshake
(the one step that does write into its configuration) is only ever performed
on the freshly allocated clone, whose heap address is never the caller's. -/
theorem backendDial_never_mutates_caller_tls_config
    (env : NetEnv) (msg : StartupMessage) (addr : String) (cfgRef : Nat) (σ : List Nat)
    (hlt : cfgRef < σ.length) :
    (BackendDial env msg addr (some cfgRef) ⟨σ, []⟩).2.store[cfgRef]? = σ[cfgRef]? ∧
    (∀ r : Nat, ∀ ok : Bool,
      Ev.handshake r ok ∈ (BackendDial env msg addr (some cfgRef) ⟨σ, []⟩).2.trace →
        r = σ.length ∧ r ≠ cfgRef) := by
  have hne : σ.length ≠ cfgRef := fun h => absurd (h ▸ hlt) (Nat.lt_irrefl _)
  rcases hd : env.dialErr with _ | e
  · rcases hw : env.sslWriteErr with _ | e1
    · rcases hr : env.sslResponse with _ | b
      · rw [backendDial_shortRead env msg addr cfgRef σ hd hw hr]
        exact ⟨rfl, fun r ok h => by simp at h⟩
      · by_cases hb : b = pgAcceptSSLRequest
        · subst hb
          rcases hh : env.handshakeErr with _ | e2
          · rcases hsw : env.startupWriteErr with _ | e3
            · rw [backendDial_tlsOk env msg addr cfgRef σ hd hw hr hh hsw]
              refine ⟨by simp [List.getElem?_append, hlt], ?_⟩
              intro r ok h
              simp at h
              exact ⟨h.1, fun hrc => hne (h.1.symm.trans hrc)⟩
            · rw [backendDial_tlsRelayFail env msg addr cfgRef σ e3 hd hw hr hh hsw]
              refine ⟨by simp [List.getElem?_append, hlt], ?_⟩
              intro r ok h
              simp at h
              exact ⟨h.1, fun hrc => hne (h.1.symm.trans hrc)⟩
          · rw [backendDial_handshakeFail env msg addr cfgRef σ e2 hd hw hr hh]
            refine ⟨by simp [List.getElem?_append, hlt], ?_⟩
            intro r ok h
            simp at h
            exact ⟨h.1, fun hrc => hne (h.1.symm.trans hrc)⟩
        · rw [backendDial_refused env msg addr cfgRef σ b hd hw hr hb]
          exact ⟨rfl, fun r ok h => by simp at h⟩
    · rw [backendDial_sslWriteFail env msg addr cfgRef σ e1 hd hw]
      exact ⟨rfl, fun r ok h => by simp at h⟩
  · rw [backendDial_dialFail env msg addr (some cfgRef) σ e hd]
    exact ⟨rfl, fun r ok h => by simp at h⟩

/-- Witness for C10 at a concrete successful TLS dial. -/
theorem backendDial_never_mutates_caller_tls_config_witness :
    (BackendDial envOk msg0 "target10" (some 0) ⟨[7], []⟩).2.store[0]? = [7][0]? ∧
    (∀ r : Nat, ∀ ok : Bool,
      Ev.handshake r ok ∈ (BackendDial envOk msg0 "target10" (some 0) ⟨[7], []⟩).2.trace →
        r = 1 ∧ r ≠ 0) :=
  backendDial_never_mutates_caller_tls_config envOk msg0 "target10" 0 [7] (by decide)
